import Mathlib

/-!
# Verification of the `amethyst_input` event taxonomy

Shallow embedding of `src/amethyst_input/src/event.rs`: the `InputEvent<T>`
enum, its derived `PartialEq` equality, its derived `Clone`, and a model of
its serde `Serialize`/`Deserialize` round trip.

Auxiliary types (`VirtualKeyCode`, `MouseButton` from winit; `Button`,
`ControllerAxis`, `ControllerButton`, `ScrollDirection`, and the trait
`BindingTypes` from sibling modules of this crate) are not part of the
given source tree; they are modelled from the specification, as noted on
each definition.
-/

/-- Model of an IEEE 754 64-bit float (`f64`) as used by the event fields:
a value is either NaN or a finite value, abstracted by an integer payload.
Rust `PartialEq` on `f64` makes NaN unequal to everything, itself included. -/
inductive F64 where
  | nan : F64
  | finite (v : Int) : F64
deriving DecidableEq, Repr

/-- Model of an IEEE 754 32-bit float (`f32`), kept as a type distinct from
`F64` just as `f32` and `f64` are distinct types in the source. -/
inductive F32 where
  | nan : F32
  | finite (v : Int) : F32
deriving DecidableEq, Repr

/-- Rust `PartialEq::eq` on `f64`: NaN compares unequal to every value. -/
def F64.rustEq : F64 → F64 → Bool
  | .finite a, .finite b => a = b
  | _, _ => false

/-- Rust `PartialEq::eq` on `f32`: NaN compares unequal to every value. -/
def F32.rustEq : F32 → F32 → Bool
  | .finite a, .finite b => a = b
  | _, _ => false

/-- Whether an `F64` is NaN. -/
def F64.isNaN : F64 → Bool
  | .nan => true
  | .finite _ => false

/-- Whether an `F32` is NaN. -/
def F32.isNaN : F32 → Bool
  | .nan => true
  | .finite _ => false

/-- Modelled from the spec: winit's `VirtualKeyCode`, the semantic key
identity carried by `KeyPressed`/`KeyReleased` (the winit crate is external;
a representative closed enumeration of key codes). -/
inductive VirtualKeyCode where
  | W | A | S | D | Space | Escape | Return
deriving DecidableEq, Repr

/-- Modelled from the spec: winit's `MouseButton`, the mouse button identity
(left, right, middle, or an additional numbered button). -/
inductive MouseButton where
  | Left
  | Right
  | Middle
  | Other (n : Nat)
deriving DecidableEq, Repr

/-- Modelled from the spec: `ScrollDirection`, a simple closed enumeration
identifying a scroll gesture direction (`scroll_direction.rs` is not under
the given source tree). -/
inductive ScrollDirection where
  | ScrollUp | ScrollDown | ScrollLeft | ScrollRight
deriving DecidableEq, Repr

/-- Modelled from the spec: `ControllerAxis`, a simple closed enumeration
identifying a physical controller axis (`controller.rs` is not under the
given source tree). -/
inductive ControllerAxis where
  | LeftX | LeftY | RightX | RightY | LeftTrigger | RightTrigger
deriving DecidableEq, Repr

/-- Modelled from the spec: `ControllerButton`, a simple closed enumeration
identifying a physical controller button (`controller.rs` is not under the
given source tree). -/
inductive ControllerButton where
  | A | B | X | Y | LeftShoulder | RightShoulder | Start | Back
deriving DecidableEq, Repr

/-- Modelled from the spec: the polymorphic `Button` union unifying the three
identity spaces (keyboard key, mouse button, controller button) as a tagged
variant (`button.rs` is not under the given source tree). -/
inductive Button where
  | Key (k : VirtualKeyCode)
  | Mouse (m : MouseButton)
  | Controller (c : ControllerButton)
deriving DecidableEq, Repr

/-- The serialized form produced by serde's data model, used to state the
serialization round-trip and error-handling properties: an enum variant is
encoded as a variant identifier (`vTag`) with a payload; primitive fields
are encoded as the corresponding primitive serde values; multiple fields
are encoded as nested pairs. Arbitrary `SVal` values also represent wire
data that is *not* a valid encoding (unknown tags, malformed payloads). -/
inductive SVal where
  | vNat (n : Nat)
  | vF64 (x : F64)
  | vF32 (x : F32)
  | vChar (c : Char)
  | vPair (a b : SVal)
  | vTag (tag : Nat) (payload : SVal)
  | vUnit
deriving DecidableEq, Repr

/-- The error taxonomy of deserialization: an unrecognized variant tag, or a
payload that is malformed or missing fields for the tag it claims. -/
inductive DeserError where
  | unknownVariant (tag : Nat)
  | malformed
deriving DecidableEq, Repr

/-- Modelled from the spec: the binding capability contract (trait
`BindingTypes`, whose declaration in `bindings.rs` is not under the given
source tree). A conforming type supplies two associated semantic kinds,
`Axis` and `Action`, each with structural equality, duplication, stable
hashing, and serialization/deserialization. -/
structure BindingTypes where
  Axis : Type
  Action : Type
  axisDecEq : DecidableEq Axis
  actionDecEq : DecidableEq Action
  cloneAxis : Axis → Axis
  cloneAction : Action → Action
  hashAxis : Axis → Nat
  hashAction : Action → Nat
  serAxis : Axis → SVal
  deserAxis : SVal → Except DeserError Axis
  serAction : Action → SVal
  deserAction : SVal → Except DeserError Action

/-- The event enum of `event.rs`: `InputEvent<T> where T: BindingTypes`,
one constructor per source variant, fields in source order.  `u32` fields
(`scancode`, `which`) are modelled as `Nat` (no arithmetic is performed on
them, so overflow never arises). -/
inductive InputEvent (T : BindingTypes) where
  | KeyPressed (key_code : VirtualKeyCode) (scancode : Nat)
  | KeyReleased (key_code : VirtualKeyCode) (scancode : Nat)
  | KeyTyped (c : Char)
  | MouseButtonPressed (b : MouseButton)
  | MouseButtonReleased (b : MouseButton)
  | ButtonPressed (b : Button)
  | ButtonReleased (b : Button)
  | CursorMoved (delta_x : F64) (delta_y : F64)
  | MouseMoved (delta_x : F32) (delta_y : F32)
  | MouseWheelMoved (dir : ScrollDirection)
  | AxisMoved (axis : T.Axis) (value : F64)
  | ControllerAxisMoved (which : Nat) (axis : ControllerAxis) (value : F32)
  | ControllerButtonPressed (which : Nat) (button : ControllerButton)
  | ControllerButtonReleased (which : Nat) (button : ControllerButton)
  | ControllerConnected (which : Nat)
  | ControllerDisconnected (which : Nat)
  | ActionPressed (a : T.Action)
  | ActionReleased (a : T.Action)
  | ActionWheelMoved (a : T.Action)

/-- The `#[derive(PartialEq)]` equality of `InputEvent<T>`: events of the
same variant compare their fields pairwise with each field type's
`PartialEq` (IEEE equality for the float fields, structural equality
elsewhere, and `T::Axis` / `T::Action` equality for the variants carrying
them); events of different variants compare unequal. -/
def InputEvent.rustEq {T : BindingTypes} : InputEvent T → InputEvent T → Bool
  | .KeyPressed k1 s1, .KeyPressed k2 s2 => decide (k1 = k2) && decide (s1 = s2)
  | .KeyReleased k1 s1, .KeyReleased k2 s2 => decide (k1 = k2) && decide (s1 = s2)
  | .KeyTyped c1, .KeyTyped c2 => decide (c1 = c2)
  | .MouseButtonPressed b1, .MouseButtonPressed b2 => decide (b1 = b2)
  | .MouseButtonReleased b1, .MouseButtonReleased b2 => decide (b1 = b2)
  | .ButtonPressed b1, .ButtonPressed b2 => decide (b1 = b2)
  | .ButtonReleased b1, .ButtonReleased b2 => decide (b1 = b2)
  | .CursorMoved x1 y1, .CursorMoved x2 y2 => x1.rustEq x2 && y1.rustEq y2
  | .MouseMoved x1 y1, .MouseMoved x2 y2 => x1.rustEq x2 && y1.rustEq y2
  | .MouseWheelMoved d1, .MouseWheelMoved d2 => decide (d1 = d2)
  | .AxisMoved a1 v1, .AxisMoved a2 v2 =>
      (@decide (a1 = a2) (T.axisDecEq a1 a2)) && v1.rustEq v2
  | .ControllerAxisMoved w1 a1 v1, .ControllerAxisMoved w2 a2 v2 =>
      decide (w1 = w2) && decide (a1 = a2) && v1.rustEq v2
  | .ControllerButtonPressed w1 b1, .ControllerButtonPressed w2 b2 =>
      decide (w1 = w2) && decide (b1 = b2)
  | .ControllerButtonReleased w1 b1, .ControllerButtonReleased w2 b2 =>
      decide (w1 = w2) && decide (b1 = b2)
  | .ControllerConnected w1, .ControllerConnected w2 => decide (w1 = w2)
  | .ControllerDisconnected w1, .ControllerDisconnected w2 => decide (w1 = w2)
  | .ActionPressed a1, .ActionPressed a2 => @decide (a1 = a2) (T.actionDecEq a1 a2)
  | .ActionReleased a1, .ActionReleased a2 => @decide (a1 = a2) (T.actionDecEq a1 a2)
  | .ActionWheelMoved a1, .ActionWheelMoved a2 => @decide (a1 = a2) (T.actionDecEq a1 a2)
  | _, _ => false

/-- The variant tag of an event: which of the 19 variants is active,
numbered in source order. -/
def InputEvent.tag {T : BindingTypes} : InputEvent T → Nat
  | .KeyPressed _ _ => 0
  | .KeyReleased _ _ => 1
  | .KeyTyped _ => 2
  | .MouseButtonPressed _ => 3
  | .MouseButtonReleased _ => 4
  | .ButtonPressed _ => 5
  | .ButtonReleased _ => 6
  | .CursorMoved _ _ => 7
  | .MouseMoved _ _ => 8
  | .MouseWheelMoved _ => 9
  | .AxisMoved _ _ => 10
  | .ControllerAxisMoved _ _ _ => 11
  | .ControllerButtonPressed _ _ => 12
  | .ControllerButtonReleased _ _ => 13
  | .ControllerConnected _ => 14
  | .ControllerDisconnected _ => 15
  | .ActionPressed _ => 16
  | .ActionReleased _ => 17
  | .ActionWheelMoved _ => 18

/-- The field payload of an event, separated from its variant tag: one
constructor per field *shape* (so `KeyPressed` and `KeyReleased` share
`keyFields`, the three action variants share `actionField`, and so on). -/
inductive FieldData (T : BindingTypes) where
  | keyFields (key_code : VirtualKeyCode) (scancode : Nat)
  | charField (c : Char)
  | mouseButtonField (b : MouseButton)
  | buttonField (b : Button)
  | f64Fields (delta_x : F64) (delta_y : F64)
  | f32Fields (delta_x : F32) (delta_y : F32)
  | scrollField (dir : ScrollDirection)
  | axisFields (axis : T.Axis) (value : F64)
  | ctrlAxisFields (which : Nat) (axis : ControllerAxis) (value : F32)
  | ctrlButtonFields (which : Nat) (button : ControllerButton)
  | whichField (which : Nat)
  | actionField (a : T.Action)

/-- Reading back every field of an event by matching on its variant. -/
def InputEvent.fields {T : BindingTypes} : InputEvent T → FieldData T
  | .KeyPressed k s => .keyFields k s
  | .KeyReleased k s => .keyFields k s
  | .KeyTyped c => .charField c
  | .MouseButtonPressed b => .mouseButtonField b
  | .MouseButtonReleased b => .mouseButtonField b
  | .ButtonPressed b => .buttonField b
  | .ButtonReleased b => .buttonField b
  | .CursorMoved x y => .f64Fields x y
  | .MouseMoved x y => .f32Fields x y
  | .MouseWheelMoved d => .scrollField d
  | .AxisMoved a v => .axisFields a v
  | .ControllerAxisMoved w a v => .ctrlAxisFields w a v
  | .ControllerButtonPressed w b => .ctrlButtonFields w b
  | .ControllerButtonReleased w b => .ctrlButtonFields w b
  | .ControllerConnected w => .whichField w
  | .ControllerDisconnected w => .whichField w
  | .ActionPressed a => .actionField a
  | .ActionReleased a => .actionField a
  | .ActionWheelMoved a => .actionField a

/-- Field-wise equality of two field payloads, each field compared with its
own type's `PartialEq` (IEEE equality on floats, structural elsewhere);
payloads of different shapes are unequal. -/
def FieldData.fieldsEqB {T : BindingTypes} : FieldData T → FieldData T → Bool
  | .keyFields k1 s1, .keyFields k2 s2 => decide (k1 = k2) && decide (s1 = s2)
  | .charField c1, .charField c2 => decide (c1 = c2)
  | .mouseButtonField b1, .mouseButtonField b2 => decide (b1 = b2)
  | .buttonField b1, .buttonField b2 => decide (b1 = b2)
  | .f64Fields x1 y1, .f64Fields x2 y2 => x1.rustEq x2 && y1.rustEq y2
  | .f32Fields x1 y1, .f32Fields x2 y2 => x1.rustEq x2 && y1.rustEq y2
  | .scrollField d1, .scrollField d2 => decide (d1 = d2)
  | .axisFields a1 v1, .axisFields a2 v2 =>
      (@decide (a1 = a2) (T.axisDecEq a1 a2)) && v1.rustEq v2
  | .ctrlAxisFields w1 a1 v1, .ctrlAxisFields w2 a2 v2 =>
      decide (w1 = w2) && decide (a1 = a2) && v1.rustEq v2
  | .ctrlButtonFields w1 b1, .ctrlButtonFields w2 b2 =>
      decide (w1 = w2) && decide (b1 = b2)
  | .whichField w1, .whichField w2 => decide (w1 = w2)
  | .actionField a1, .actionField a2 => @decide (a1 = a2) (T.actionDecEq a1 a2)
  | _, _ => false

/-- The `#[derivative(Clone(bound = ""))]` duplication of `InputEvent<T>`:
rebuild the same variant, duplicating each field (primitive fields are
plain value copies; `T::Axis` / `T::Action` fields use the contract's
duplication). -/
def InputEvent.clone {T : BindingTypes} : InputEvent T → InputEvent T
  | .KeyPressed k s => .KeyPressed k s
  | .KeyReleased k s => .KeyReleased k s
  | .KeyTyped c => .KeyTyped c
  | .MouseButtonPressed b => .MouseButtonPressed b
  | .MouseButtonReleased b => .MouseButtonReleased b
  | .ButtonPressed b => .ButtonPressed b
  | .ButtonReleased b => .ButtonReleased b
  | .CursorMoved x y => .CursorMoved x y
  | .MouseMoved x y => .MouseMoved x y
  | .MouseWheelMoved d => .MouseWheelMoved d
  | .AxisMoved a v => .AxisMoved (T.cloneAxis a) v
  | .ControllerAxisMoved w a v => .ControllerAxisMoved w a v
  | .ControllerButtonPressed w b => .ControllerButtonPressed w b
  | .ControllerButtonReleased w b => .ControllerButtonReleased w b
  | .ControllerConnected w => .ControllerConnected w
  | .ControllerDisconnected w => .ControllerDisconnected w
  | .ActionPressed a => .ActionPressed (T.cloneAction a)
  | .ActionReleased a => .ActionReleased (T.cloneAction a)
  | .ActionWheelMoved a => .ActionWheelMoved (T.cloneAction a)

/-- Whether any float field of the event is NaN (possible only in
`CursorMoved`, `MouseMoved`, `AxisMoved`, `ControllerAxisMoved`). -/
def InputEvent.hasNaN {T : BindingTypes} : InputEvent T → Bool
  | .CursorMoved x y => x.isNaN || y.isNaN
  | .MouseMoved x y => x.isNaN || y.isNaN
  | .AxisMoved _ v => v.isNaN
  | .ControllerAxisMoved _ _ v => v.isNaN
  | _ => false

/-- Serde encoding of a `VirtualKeyCode`: variant identifier with unit payload. -/
def VirtualKeyCode.enc : VirtualKeyCode → SVal
  | .W => .vTag 0 .vUnit
  | .A => .vTag 1 .vUnit
  | .S => .vTag 2 .vUnit
  | .D => .vTag 3 .vUnit
  | .Space => .vTag 4 .vUnit
  | .Escape => .vTag 5 .vUnit
  | .Return => .vTag 6 .vUnit

/-- Serde decoding of a `VirtualKeyCode`; anything else is malformed. -/
def VirtualKeyCode.dec : SVal → Except DeserError VirtualKeyCode
  | .vTag 0 .vUnit => .ok .W
  | .vTag 1 .vUnit => .ok .A
  | .vTag 2 .vUnit => .ok .S
  | .vTag 3 .vUnit => .ok .D
  | .vTag 4 .vUnit => .ok .Space
  | .vTag 5 .vUnit => .ok .Escape
  | .vTag 6 .vUnit => .ok .Return
  | _ => .error .malformed

/-- Serde encoding of a `MouseButton`. -/
def MouseButton.enc : MouseButton → SVal
  | .Left => .vTag 0 .vUnit
  | .Right => .vTag 1 .vUnit
  | .Middle => .vTag 2 .vUnit
  | .Other n => .vTag 3 (.vNat n)

/-- Serde decoding of a `MouseButton`; anything else is malformed. -/
def MouseButton.dec : SVal → Except DeserError MouseButton
  | .vTag 0 .vUnit => .ok .Left
  | .vTag 1 .vUnit => .ok .Right
  | .vTag 2 .vUnit => .ok .Middle
  | .vTag 3 (.vNat n) => .ok (.Other n)
  | _ => .error .malformed

/-- Serde encoding of a `ScrollDirection`. -/
def ScrollDirection.enc : ScrollDirection → SVal
  | .ScrollUp => .vTag 0 .vUnit
  | .ScrollDown => .vTag 1 .vUnit
  | .ScrollLeft => .vTag 2 .vUnit
  | .ScrollRight => .vTag 3 .vUnit

/-- Serde decoding of a `ScrollDirection`; anything else is malformed. -/
def ScrollDirection.dec : SVal → Except DeserError ScrollDirection
  | .vTag 0 .vUnit => .ok .ScrollUp
  | .vTag 1 .vUnit => .ok .ScrollDown
  | .vTag 2 .vUnit => .ok .ScrollLeft
  | .vTag 3 .vUnit => .ok .ScrollRight
  | _ => .error .malformed

/-- Serde encoding of a `ControllerAxis`. -/
def ControllerAxis.enc : ControllerAxis → SVal
  | .LeftX => .vTag 0 .vUnit
  | .LeftY => .vTag 1 .vUnit
  | .RightX => .vTag 2 .vUnit
  | .RightY => .vTag 3 .vUnit
  | .LeftTrigger => .vTag 4 .vUnit
  | .RightTrigger => .vTag 5 .vUnit

/-- Serde decoding of a `ControllerAxis`; anything else is malformed. -/
def ControllerAxis.dec : SVal → Except DeserError ControllerAxis
  | .vTag 0 .vUnit => .ok .LeftX
  | .vTag 1 .vUnit => .ok .LeftY
  | .vTag 2 .vUnit => .ok .RightX
  | .vTag 3 .vUnit => .ok .RightY
  | .vTag 4 .vUnit => .ok .LeftTrigger
  | .vTag 5 .vUnit => .ok .RightTrigger
  | _ => .error .malformed

/-- Serde encoding of a `ControllerButton`. -/
def ControllerButton.enc : ControllerButton → SVal
  | .A => .vTag 0 .vUnit
  | .B => .vTag 1 .vUnit
  | .X => .vTag 2 .vUnit
  | .Y => .vTag 3 .vUnit
  | .LeftShoulder => .vTag 4 .vUnit
  | .RightShoulder => .vTag 5 .vUnit
  | .Start => .vTag 6 .vUnit
  | .Back => .vTag 7 .vUnit

/-- Serde decoding of a `ControllerButton`; anything else is malformed. -/
def ControllerButton.dec : SVal → Except DeserError ControllerButton
  | .vTag 0 .vUnit => .ok .A
  | .vTag 1 .vUnit => .ok .B
  | .vTag 2 .vUnit => .ok .X
  | .vTag 3 .vUnit => .ok .Y
  | .vTag 4 .vUnit => .ok .LeftShoulder
  | .vTag 5 .vUnit => .ok .RightShoulder
  | .vTag 6 .vUnit => .ok .Start
  | .vTag 7 .vUnit => .ok .Back
  | _ => .error .malformed

/-- Serde encoding of a `Button` (a nested enum: variant identifier with the
inner identity's encoding as payload). -/
def Button.enc : Button → SVal
  | .Key k => .vTag 0 k.enc
  | .Mouse m => .vTag 1 m.enc
  | .Controller c => .vTag 2 c.enc

/-- Serde decoding of a `Button`; unknown inner data is an error. -/
def Button.dec : SVal → Except DeserError Button
  | .vTag 0 p =>
      match VirtualKeyCode.dec p with
      | .ok k => .ok (.Key k)
      | .error e => .error e
  | .vTag 1 p =>
      match MouseButton.dec p with
      | .ok m => .ok (.Mouse m)
      | .error e => .error e
  | .vTag 2 p =>
      match ControllerButton.dec p with
      | .ok c => .ok (.Controller c)
      | .error e => .error e
  | _ => .error .malformed

/-- Serde serialization of an `InputEvent<T>`: a variant identifier (in
source order, matching `InputEvent.tag`) with the variant's fields as
payload; the `T::Axis` / `T::Action` fields are serialized with the
contract's serializer. -/
def InputEvent.encode {T : BindingTypes} : InputEvent T → SVal
  | .KeyPressed k s => .vTag 0 (.vPair k.enc (.vNat s))
  | .KeyReleased k s => .vTag 1 (.vPair k.enc (.vNat s))
  | .KeyTyped c => .vTag 2 (.vChar c)
  | .MouseButtonPressed b => .vTag 3 b.enc
  | .MouseButtonReleased b => .vTag 4 b.enc
  | .ButtonPressed b => .vTag 5 b.enc
  | .ButtonReleased b => .vTag 6 b.enc
  | .CursorMoved x y => .vTag 7 (.vPair (.vF64 x) (.vF64 y))
  | .MouseMoved x y => .vTag 8 (.vPair (.vF32 x) (.vF32 y))
  | .MouseWheelMoved d => .vTag 9 d.enc
  | .AxisMoved a v => .vTag 10 (.vPair (T.serAxis a) (.vF64 v))
  | .ControllerAxisMoved w a v => .vTag 11 (.vPair (.vNat w) (.vPair a.enc (.vF32 v)))
  | .ControllerButtonPressed w b => .vTag 12 (.vPair (.vNat w) b.enc)
  | .ControllerButtonReleased w b => .vTag 13 (.vPair (.vNat w) b.enc)
  | .ControllerConnected w => .vTag 14 (.vNat w)
  | .ControllerDisconnected w => .vTag 15 (.vNat w)
  | .ActionPressed a => .vTag 16 (T.serAction a)
  | .ActionReleased a => .vTag 17 (T.serAction a)
  | .ActionWheelMoved a => .vTag 18 (T.serAction a)

/-- Serde deserialization of an `InputEvent<T>`: dispatch on the variant
identifier; a tag matching no variant is an `unknownVariant` error, a
payload malformed or missing fields for its tag is a `malformed` error, and
field decoding errors propagate. -/
def InputEvent.decode (T : BindingTypes) : SVal → Except DeserError (InputEvent T)
  | .vTag 0 p =>
      match p with
      | .vPair kv (.vNat s) =>
          match VirtualKeyCode.dec kv with
          | .ok k => .ok (.KeyPressed k s)
          | .error e => .error e
      | _ => .error .malformed
  | .vTag 1 p =>
      match p with
      | .vPair kv (.vNat s) =>
          match VirtualKeyCode.dec kv with
          | .ok k => .ok (.KeyReleased k s)
          | .error e => .error e
      | _ => .error .malformed
  | .vTag 2 p =>
      match p with
      | .vChar c => .ok (.KeyTyped c)
      | _ => .error .malformed
  | .vTag 3 p =>
      match MouseButton.dec p with
      | .ok m => .ok (.MouseButtonPressed m)
      | .error e => .error e
  | .vTag 4 p =>
      match MouseButton.dec p with
      | .ok m => .ok (.MouseButtonReleased m)
      | .error e => .error e
  | .vTag 5 p =>
      match Button.dec p with
      | .ok b => .ok (.ButtonPressed b)
      | .error e => .error e
  | .vTag 6 p =>
      match Button.dec p with
      | .ok b => .ok (.ButtonReleased b)
      | .error e => .error e
  | .vTag 7 p =>
      match p with
      | .vPair (.vF64 x) (.vF64 y) => .ok (.CursorMoved x y)
      | _ => .error .malformed
  | .vTag 8 p =>
      match p with
      | .vPair (.vF32 x) (.vF32 y) => .ok (.MouseMoved x y)
      | _ => .error .malformed
  | .vTag 9 p =>
      match ScrollDirection.dec p with
      | .ok d => .ok (.MouseWheelMoved d)
      | .error e => .error e
  | .vTag 10 p =>
      match p with
      | .vPair av (.vF64 v) =>
          match T.deserAxis av with
          | .ok a => .ok (.AxisMoved a v)
          | .error e => .error e
      | _ => .error .malformed
  | .vTag 11 p =>
      match p with
      | .vPair (.vNat w) (.vPair av (.vF32 v)) =>
          match ControllerAxis.dec av with
          | .ok a => .ok (.ControllerAxisMoved w a v)
          | .error e => .error e
      | _ => .error .malformed
  | .vTag 12 p =>
      match p with
      | .vPair (.vNat w) bv =>
          match ControllerButton.dec bv with
          | .ok b => .ok (.ControllerButtonPressed w b)
          | .error e => .error e
      | _ => .error .malformed
  | .vTag 13 p =>
      match p with
      | .vPair (.vNat w) bv =>
          match ControllerButton.dec bv with
          | .ok b => .ok (.ControllerButtonReleased w b)
          | .error e => .error e
      | _ => .error .malformed
  | .vTag 14 p =>
      match p with
      | .vNat w => .ok (.ControllerConnected w)
      | _ => .error .malformed
  | .vTag 15 p =>
      match p with
      | .vNat w => .ok (.ControllerDisconnected w)
      | _ => .error .malformed
  | .vTag 16 p =>
      match T.deserAction p with
      | .ok a => .ok (.ActionPressed a)
      | .error e => .error e
  | .vTag 17 p =>
      match T.deserAction p with
      | .ok a => .ok (.ActionReleased a)
      | .error e => .error e
  | .vTag 18 p =>
      match T.deserAction p with
      | .ok a => .ok (.ActionWheelMoved a)
      | .error e => .error e
  | .vTag (n + 19) _ => .error (.unknownVariant (n + 19))
  | _ => .error .malformed

/-- The trait list of the derive attribute on `InputEvent` in `event.rs`
(`PartialEq, Serialize, Deserialize, Debug, Derivative` where the
`Derivative` line expands to `Clone` with an empty bound): exactly the
capabilities implemented for `InputEvent<T>`.  No ordering trait
(`PartialOrd` / `Ord`) and no `Hash` appears, and the file contains no
manual trait implementation. -/
def inputEventDerivedTraits : List String :=
  ["PartialEq", "Serialize", "Deserialize", "Debug", "Clone"]

/-- A concrete application axis vocabulary used to instantiate the binding
capability contract in witnesses (e.g. a throttle / steering game). -/
inductive TestAxis where
  | Throttle | Steering
deriving DecidableEq, Repr

/-- A concrete application action vocabulary used to instantiate the
binding capability contract in witnesses (e.g. a jump / shoot game). -/
inductive TestAction where
  | Jump | Shoot
deriving DecidableEq, Repr

/-- Serde encoding of `TestAxis`. -/
def TestAxis.enc : TestAxis → SVal
  | .Throttle => .vTag 0 .vUnit
  | .Steering => .vTag 1 .vUnit

/-- Serde decoding of `TestAxis`. -/
def TestAxis.dec : SVal → Except DeserError TestAxis
  | .vTag 0 .vUnit => .ok .Throttle
  | .vTag 1 .vUnit => .ok .Steering
  | _ => .error .malformed

/-- Serde encoding of `TestAction`. -/
def TestAction.enc : TestAction → SVal
  | .Jump => .vTag 0 .vUnit
  | .Shoot => .vTag 1 .vUnit

/-- Serde decoding of `TestAction`. -/
def TestAction.dec : SVal → Except DeserError TestAction
  | .vTag 0 .vUnit => .ok .Jump
  | .vTag 1 .vUnit => .ok .Shoot
  | _ => .error .malformed

/-- A concrete instance of the binding capability contract, built from
`TestAxis` and `TestAction`: structural equality, identity duplication,
injective hashing, and the serde encodings above. -/
def TestBindings : BindingTypes where
  Axis := TestAxis
  Action := TestAction
  axisDecEq := inferInstance
  actionDecEq := inferInstance
  cloneAxis := fun a => a
  cloneAction := fun a => a
  hashAxis := fun a => match a with | .Throttle => 0 | .Steering => 1
  hashAction := fun a => match a with | .Jump => 0 | .Shoot => 1
  serAxis := TestAxis.enc
  deserAxis := TestAxis.dec
  serAction := TestAction.enc
  deserAction := TestAction.dec

theorem vkc_dec_enc (k : VirtualKeyCode) : VirtualKeyCode.dec k.enc = .ok k := by
  cases k <;> rfl

theorem mouseButton_dec_enc (m : MouseButton) : MouseButton.dec m.enc = .ok m := by
  cases m <;> rfl

theorem scrollDirection_dec_enc (d : ScrollDirection) : ScrollDirection.dec d.enc = .ok d := by
  cases d <;> rfl

theorem controllerAxis_dec_enc (a : ControllerAxis) : ControllerAxis.dec a.enc = .ok a := by
  cases a <;> rfl

theorem controllerButton_dec_enc (b : ControllerButton) : ControllerButton.dec b.enc = .ok b := by
  cases b <;> rfl

theorem button_dec_enc (b : Button) : Button.dec b.enc = .ok b := by
  cases b <;> simp [Button.enc, Button.dec, vkc_dec_enc, mouseButton_dec_enc,
    controllerButton_dec_enc]

theorem vkc_dec_sound {s : SVal} {k : VirtualKeyCode}
    (h : VirtualKeyCode.dec s = .ok k) : s = k.enc := by
  unfold VirtualKeyCode.dec at h
  split at h <;> (try simp at h) <;> subst_vars <;> rfl

theorem mouseButton_dec_sound {s : SVal} {m : MouseButton}
    (h : MouseButton.dec s = .ok m) : s = m.enc := by
  unfold MouseButton.dec at h
  split at h <;> (try simp at h) <;> subst_vars <;> rfl

theorem scrollDirection_dec_sound {s : SVal} {d : ScrollDirection}
    (h : ScrollDirection.dec s = .ok d) : s = d.enc := by
  unfold ScrollDirection.dec at h
  split at h <;> (try simp at h) <;> subst_vars <;> rfl

theorem controllerAxis_dec_sound {s : SVal} {a : ControllerAxis}
    (h : ControllerAxis.dec s = .ok a) : s = a.enc := by
  unfold ControllerAxis.dec at h
  split at h <;> (try simp at h) <;> subst_vars <;> rfl

theorem controllerButton_dec_sound {s : SVal} {b : ControllerButton}
    (h : ControllerButton.dec s = .ok b) : s = b.enc := by
  unfold ControllerButton.dec at h
  split at h <;> (try simp at h) <;> subst_vars <;> rfl

theorem button_dec_sound {s : SVal} {b : Button}
    (h : Button.dec s = .ok b) : s = b.enc := by
  unfold Button.dec at h
  split at h <;> (try simp at h) <;> split at h <;> (try simp at h) <;> subst_vars <;>
    simp only [Button.enc, SVal.vTag.injEq, Nat.zero_ne_one, true_and] <;>
    first
      | exact vkc_dec_sound (by assumption)
      | exact mouseButton_dec_sound (by assumption)
      | exact controllerButton_dec_sound (by assumption)

theorem InputEvent.decode_encode {T : BindingTypes}
    (hA : ∀ a, T.deserAxis (T.serAxis a) = .ok a)
    (hAc : ∀ a, T.deserAction (T.serAction a) = .ok a)
    (e : InputEvent T) : InputEvent.decode T e.encode = .ok e := by
  cases e <;> simp [InputEvent.encode, InputEvent.decode, vkc_dec_enc,
    mouseButton_dec_enc, button_dec_enc, scrollDirection_dec_enc, controllerAxis_dec_enc,
    controllerButton_dec_enc, hA, hAc]

theorem InputEvent.decode_sound {T : BindingTypes}
    (hA : ∀ s a, T.deserAxis s = .ok a → s = T.serAxis a)
    (hAc : ∀ s a, T.deserAction s = .ok a → s = T.serAction a)
    {v : SVal} {e : InputEvent T} (h : InputEvent.decode T v = .ok e) :
    v = e.encode := by
  unfold InputEvent.decode at h
  split at h <;> (try simp at h) <;>
    (try split at h) <;> (try simp at h) <;>
    (try split at h) <;> (try simp at h) <;>
    subst_vars <;>
    simp [InputEvent.encode] <;>
    first
      | rfl
      | exact vkc_dec_sound (by assumption)
      | exact mouseButton_dec_sound (by assumption)
      | exact button_dec_sound (by assumption)
      | exact scrollDirection_dec_sound (by assumption)
      | exact controllerAxis_dec_sound (by assumption)
      | exact controllerButton_dec_sound (by assumption)
      | exact hA _ _ (by assumption)
      | exact hAc _ _ (by assumption)

theorem testAxis_dec_enc (a : TestAxis) : TestAxis.dec a.enc = .ok a := by
  cases a <;> rfl

theorem testAction_dec_enc (a : TestAction) : TestAction.dec a.enc = .ok a := by
  cases a <;> rfl

theorem testAxis_dec_sound {s : SVal} {a : TestAxis}
    (h : TestAxis.dec s = .ok a) : s = a.enc := by
  unfold TestAxis.dec at h
  split at h <;> (try simp at h) <;> subst_vars <;> rfl

theorem testAction_dec_sound {s : SVal} {a : TestAction}
    (h : TestAction.dec s = .ok a) : s = a.enc := by
  unfold TestAction.dec at h
  split at h <;> (try simp at h) <;> subst_vars <;> rfl

theorem InputEvent.rustEq_char {T : BindingTypes} (e1 e2 : InputEvent T) :
    e1.rustEq e2 = (decide (e1.tag = e2.tag) && e1.fields.fieldsEqB e2.fields) := by
  cases e1 <;> cases e2 <;> rfl

/-- C1: under the derived `PartialEq`, two `InputEvent<T>` values are equal
exactly when they carry the same variant tag and all corresponding fields
are equal under the fields' own equality (including the `T::Axis` /
`T::Action` fields); in particular, events with different variant tags are
never equal, whatever their field values. -/
theorem c1_eq_iff_same_tag_and_fields_eq {T : BindingTypes} (e1 e2 : InputEvent T) :
    e1.rustEq e2 = (decide (e1.tag = e2.tag) && e1.fields.fieldsEqB e2.fields) ∧
    (e1.tag ≠ e2.tag → e1.rustEq e2 = false) := by
  refine ⟨InputEvent.rustEq_char e1 e2, fun hne => ?_⟩
  rw [InputEvent.rustEq_char]
  simp [hne]

theorem c1_eq_iff_same_tag_and_fields_eq_witness :
    (@InputEvent.KeyTyped TestBindings 'a').tag ≠
      (@InputEvent.ControllerConnected TestBindings 3).tag ∧
    (@InputEvent.KeyTyped TestBindings 'a').rustEq (.ControllerConnected 3) = false :=
  ⟨by decide,
   (c1_eq_iff_same_tag_and_fields_eq (.KeyTyped 'a') (.ControllerConnected 3)).2 (by decide)⟩

/-- C2: for any binding type satisfying the capability contract (in
particular, its axis and action serializations round-trip), serializing an
event of any variant and deserializing the result yields the original
event, including for the variants carrying `T::Axis` / `T::Action`. -/
theorem c2_serialize_then_deserialize_id {T : BindingTypes}
    (hA : ∀ a, T.deserAxis (T.serAxis a) = .ok a)
    (hAc : ∀ a, T.deserAction (T.serAction a) = .ok a)
    (e : InputEvent T) : InputEvent.decode T e.encode = .ok e :=
  InputEvent.decode_encode hA hAc e

theorem c2_serialize_then_deserialize_id_witness :
    InputEvent.decode TestBindings
        (InputEvent.encode (@InputEvent.AxisMoved TestBindings TestAxis.Throttle (.finite 5))) =
      .ok (@InputEvent.AxisMoved TestBindings TestAxis.Throttle (.finite 5)) :=
  c2_serialize_then_deserialize_id testAxis_dec_enc testAction_dec_enc _

/-- C3: deserializing encoded data that is not the serialization of any
event — a variant tag matching no variant, or fields malformed or missing
for the tag it claims — returns a deserialization error to the caller and
never succeeds by silently substituting a default variant or fields. -/
theorem c3_invalid_data_errors {T : BindingTypes}
    (hA : ∀ s a, T.deserAxis s = .ok a → s = T.serAxis a)
    (hAc : ∀ s a, T.deserAction s = .ok a → s = T.serAction a)
    (v : SVal) (hv : ∀ e : InputEvent T, v ≠ e.encode) :
    (∃ err, InputEvent.decode T v = .error err) ∧
    ∀ e, InputEvent.decode T v ≠ .ok e := by
  have key : ∀ e, InputEvent.decode T v ≠ .ok e := fun e hok =>
    hv e (InputEvent.decode_sound hA hAc hok)
  refine ⟨?_, key⟩
  cases hd : InputEvent.decode T v with
  | error err => exact ⟨err, rfl⟩
  | ok e => exact absurd hd (key e)

theorem c3_invalid_data_errors_witness :
    InputEvent.decode TestBindings (.vTag 19 .vUnit) = .error (.unknownVariant 19) ∧
    ∃ err, InputEvent.decode TestBindings (.vTag 19 .vUnit) = .error err :=
  ⟨rfl,
   (c3_invalid_data_errors (fun _ _ h => testAxis_dec_sound h)
      (fun _ _ h => testAction_dec_sound h) (.vTag 19 .vUnit)
      (fun e => by cases e <;> simp [InputEvent.encode])).1⟩

/-- C4: an `AxisMoved` event (application-defined `T::Axis` identity with
an `f64` value) is never equal to a `ControllerAxisMoved` event (`u32`
controller id, physical `ControllerAxis` identity, `f32` value), whatever
the field values: the two channels are distinct variants. -/
theorem c4_axis_channels_never_equal {T : BindingTypes}
    (axis : T.Axis) (value : F64) (which : Nat) (caxis : ControllerAxis) (cvalue : F32) :
    (@InputEvent.AxisMoved T axis value).rustEq (.ControllerAxisMoved which caxis cvalue) = false ∧
    (@InputEvent.ControllerAxisMoved T which caxis cvalue).rustEq (.AxisMoved axis value) = false :=
  ⟨rfl, rfl⟩

/-- C5 counterexample: the derive list of `InputEvent` contains no ordering
capability — neither `PartialOrd` nor `Ord` is implemented, so the event
type does not support ordering comparison. -/
theorem c5_no_ordering_counterexample :
    "PartialOrd" ∉ inputEventDerivedTraits ∧ "Ord" ∉ inputEventDerivedTraits := by
  decide

/-- C5 (amended): whenever `T` satisfies the binding capability contract,
`InputEvent<T>` supports equality comparison, duplication, and both
serialization directions (plus debug formatting), but not ordering
comparison: the derived capabilities are exactly
`PartialEq, Serialize, Deserialize, Debug, Clone`. -/
theorem c5_capabilities_support :
    ("PartialEq" ∈ inputEventDerivedTraits ∧ "Serialize" ∈ inputEventDerivedTraits ∧
     "Deserialize" ∈ inputEventDerivedTraits ∧ "Clone" ∈ inputEventDerivedTraits ∧
     "Debug" ∈ inputEventDerivedTraits) ∧
    "PartialOrd" ∉ inputEventDerivedTraits ∧ "Ord" ∉ inputEventDerivedTraits := by
  decide

/-- C6: for any action identity `a`, the event `ActionPressed(a)` is not
equal to the event `ActionReleased(a)`: sharing the action identity does
not equate a press with a release. -/
theorem c6_press_not_equal_release {T : BindingTypes} (a : T.Action) :
    (@InputEvent.ActionPressed T a).rustEq (.ActionReleased a) = false ∧
    (@InputEvent.ActionReleased T a).rustEq (.ActionPressed a) = false :=
  ⟨rfl, rfl⟩

/-- C7: for every variant and every assignment of its fields, constructing
the event and reading it back by matching yields exactly the variant tag
and field values assigned; construction is a total function (infallible)
and performs no validation or modification. -/
theorem c7_construct_read_roundtrip {T : BindingTypes} :
    (∀ k s, (@InputEvent.KeyPressed T k s).fields = .keyFields k s ∧
      (@InputEvent.KeyPressed T k s).tag = 0) ∧
    (∀ k s, (@InputEvent.KeyReleased T k s).fields = .keyFields k s ∧
      (@InputEvent.KeyReleased T k s).tag = 1) ∧
    (∀ c, (@InputEvent.KeyTyped T c).fields = .charField c ∧
      (@InputEvent.KeyTyped T c).tag = 2) ∧
    (∀ b, (@InputEvent.MouseButtonPressed T b).fields = .mouseButtonField b ∧
      (@InputEvent.MouseButtonPressed T b).tag = 3) ∧
    (∀ b, (@InputEvent.MouseButtonReleased T b).fields = .mouseButtonField b ∧
      (@InputEvent.MouseButtonReleased T b).tag = 4) ∧
    (∀ b, (@InputEvent.ButtonPressed T b).fields = .buttonField b ∧
      (@InputEvent.ButtonPressed T b).tag = 5) ∧
    (∀ b, (@InputEvent.ButtonReleased T b).fields = .buttonField b ∧
      (@InputEvent.ButtonReleased T b).tag = 6) ∧
    (∀ x y, (@InputEvent.CursorMoved T x y).fields = .f64Fields x y ∧
      (@InputEvent.CursorMoved T x y).tag = 7) ∧
    (∀ x y, (@InputEvent.MouseMoved T x y).fields = .f32Fields x y ∧
      (@InputEvent.MouseMoved T x y).tag = 8) ∧
    (∀ d, (@InputEvent.MouseWheelMoved T d).fields = .scrollField d ∧
      (@InputEvent.MouseWheelMoved T d).tag = 9) ∧
    (∀ a v, (@InputEvent.AxisMoved T a v).fields = .axisFields a v ∧
      (@InputEvent.AxisMoved T a v).tag = 10) ∧
    (∀ w a v, (@InputEvent.ControllerAxisMoved T w a v).fields = .ctrlAxisFields w a v ∧
      (@InputEvent.ControllerAxisMoved T w a v).tag = 11) ∧
    (∀ w b, (@InputEvent.ControllerButtonPressed T w b).fields = .ctrlButtonFields w b ∧
      (@InputEvent.ControllerButtonPressed T w b).tag = 12) ∧
    (∀ w b, (@InputEvent.ControllerButtonReleased T w b).fields = .ctrlButtonFields w b ∧
      (@InputEvent.ControllerButtonReleased T w b).tag = 13) ∧
    (∀ w, (@InputEvent.ControllerConnected T w).fields = .whichField w ∧
      (@InputEvent.ControllerConnected T w).tag = 14) ∧
    (∀ w, (@InputEvent.ControllerDisconnected T w).fields = .whichField w ∧
      (@InputEvent.ControllerDisconnected T w).tag = 15) ∧
    (∀ a, (@InputEvent.ActionPressed T a).fields = .actionField a ∧
      (@InputEvent.ActionPressed T a).tag = 16) ∧
    (∀ a, (@InputEvent.ActionReleased T a).fields = .actionField a ∧
      (@InputEvent.ActionReleased T a).tag = 17) ∧
    (∀ a, (@InputEvent.ActionWheelMoved T a).fields = .actionField a ∧
      (@InputEvent.ActionWheelMoved T a).tag = 18) :=
  ⟨fun _ _ => ⟨rfl, rfl⟩, fun _ _ => ⟨rfl, rfl⟩, fun _ => ⟨rfl, rfl⟩, fun _ => ⟨rfl, rfl⟩,
   fun _ => ⟨rfl, rfl⟩, fun _ => ⟨rfl, rfl⟩, fun _ => ⟨rfl, rfl⟩, fun _ _ => ⟨rfl, rfl⟩,
   fun _ _ => ⟨rfl, rfl⟩, fun _ => ⟨rfl, rfl⟩, fun _ _ => ⟨rfl, rfl⟩,
   fun _ _ _ => ⟨rfl, rfl⟩, fun _ _ => ⟨rfl, rfl⟩, fun _ _ => ⟨rfl, rfl⟩,
   fun _ => ⟨rfl, rfl⟩, fun _ => ⟨rfl, rfl⟩, fun _ => ⟨rfl, rfl⟩, fun _ => ⟨rfl, rfl⟩,
   fun _ => ⟨rfl, rfl⟩⟩

/-- C8: duplicating an event with the derived `Clone` produces a value
equal to the original — the same variant with the same fields — whenever
the contract's axis/action duplication is value-faithful; as a pure value
the duplicate shares no mutable state with the original. -/
theorem c8_clone_equals_original {T : BindingTypes}
    (hA : ∀ a, T.cloneAxis a = a) (hAc : ∀ a, T.cloneAction a = a)
    (e : InputEvent T) : e.clone = e := by
  cases e <;> simp [InputEvent.clone, hA, hAc]

theorem c8_clone_equals_original_witness :
    InputEvent.clone (@InputEvent.ActionPressed TestBindings TestAction.Jump) =
      @InputEvent.ActionPressed TestBindings TestAction.Jump :=
  c8_clone_equals_original (fun _ => rfl) (fun _ => rfl) _

/-- C9: `CursorMoved` carries its screen-space delta as two 64-bit floats
while `MouseMoved` carries its device-space delta as two 32-bit floats —
the constructors take `F64` respectively `F32` fields and serialize to
`f64` respectively `f32` wire values — and the two variants are distinct:
an event of one is never equal to an event of the other. -/
theorem c9_cursor_and_mouse_distinct {T : BindingTypes} (dx dy : F64) (mx my : F32) :
    (@InputEvent.CursorMoved T dx dy).rustEq (.MouseMoved mx my) = false ∧
    (@InputEvent.MouseMoved T mx my).rustEq (.CursorMoved dx dy) = false ∧
    (@InputEvent.CursorMoved T dx dy).encode = .vTag 7 (.vPair (.vF64 dx) (.vF64 dy)) ∧
    (@InputEvent.MouseMoved T mx my).encode = .vTag 8 (.vPair (.vF32 mx) (.vF32 my)) :=
  ⟨rfl, rfl, rfl, rfl⟩

/-- C10: the derived equality is not reflexive on events carrying a NaN
float field (possible in `CursorMoved`, `MouseMoved`, `AxisMoved`, and
`ControllerAxisMoved`, whose fields use IEEE float equality): such an
event is not equal to itself; on every event without a NaN field,
equality is reflexive. -/
theorem inputEvent_rustEq_self {T : BindingTypes} (e : InputEvent T) :
    e.rustEq e = !e.hasNaN := by
  cases e
  case CursorMoved x y =>
    show (x.rustEq x && y.rustEq y) = _
    cases x <;> cases y <;> simp [F64.rustEq, InputEvent.hasNaN, F64.isNaN]
  case MouseMoved x y =>
    show (x.rustEq x && y.rustEq y) = _
    cases x <;> cases y <;> simp [F32.rustEq, InputEvent.hasNaN, F32.isNaN]
  case AxisMoved a v =>
    show (_ && v.rustEq v) = _
    cases v <;> simp [F64.rustEq, InputEvent.hasNaN, F64.isNaN]
  case ControllerAxisMoved w a v =>
    show (_ && _ && v.rustEq v) = _
    cases v <;> simp [F32.rustEq, InputEvent.hasNaN, F32.isNaN]
  case KeyPressed k s => show (decide _ && decide _) = _; simp [InputEvent.hasNaN]
  case KeyReleased k s => show (decide _ && decide _) = _; simp [InputEvent.hasNaN]
  case KeyTyped c => show decide _ = _; simp [InputEvent.hasNaN]
  case MouseButtonPressed b => show decide _ = _; simp [InputEvent.hasNaN]
  case MouseButtonReleased b => show decide _ = _; simp [InputEvent.hasNaN]
  case ButtonPressed b => show decide _ = _; simp [InputEvent.hasNaN]
  case ButtonReleased b => show decide _ = _; simp [InputEvent.hasNaN]
  case MouseWheelMoved d => show decide _ = _; simp [InputEvent.hasNaN]
  case ControllerButtonPressed w b =>
    show (decide _ && decide _) = _; simp [InputEvent.hasNaN]
  case ControllerButtonReleased w b =>
    show (decide _ && decide _) = _; simp [InputEvent.hasNaN]
  case ControllerConnected w => show decide _ = _; simp [InputEvent.hasNaN]
  case ControllerDisconnected w => show decide _ = _; simp [InputEvent.hasNaN]
  case ActionPressed a => show (@decide _ (T.actionDecEq a a)) = _; simp [InputEvent.hasNaN]
  case ActionReleased a => show (@decide _ (T.actionDecEq a a)) = _; simp [InputEvent.hasNaN]
  case ActionWheelMoved a => show (@decide _ (T.actionDecEq a a)) = _; simp [InputEvent.hasNaN]

/-- C10: the derived equality is not reflexive on events carrying a NaN
float field (possible in `CursorMoved`, `MouseMoved`, `AxisMoved`, and
`ControllerAxisMoved`, whose fields use IEEE float equality): such an
event is not equal to itself; on every event without a NaN field,
equality is reflexive. -/
theorem c10_reflexive_iff_no_nan {T : BindingTypes} (e : InputEvent T) :
    (e.hasNaN = true → e.rustEq e = false) ∧
    (e.hasNaN = false → e.rustEq e = true) := by
  rw [inputEvent_rustEq_self]
  cases e.hasNaN <;> simp

theorem c10_reflexive_iff_no_nan_witness :
    ((@InputEvent.CursorMoved TestBindings .nan (.finite 0)).hasNaN = true ∧
     (@InputEvent.CursorMoved TestBindings .nan (.finite 0)).rustEq
       (.CursorMoved .nan (.finite 0)) = false) ∧
    ((@InputEvent.CursorMoved TestBindings (.finite 1) (.finite 2)).hasNaN = false ∧
     (@InputEvent.CursorMoved TestBindings (.finite 1) (.finite 2)).rustEq
       (.CursorMoved (.finite 1) (.finite 2)) = true) :=
  ⟨⟨rfl, (c10_reflexive_iff_no_nan (.CursorMoved .nan (.finite 0))).1 rfl⟩,
   ⟨rfl, (c10_reflexive_iff_no_nan (.CursorMoved (.finite 1) (.finite 2))).2 rfl⟩⟩
